import Mathlib

/-!
Shallow embedding of `custom_components/delonghi_comfort/api.py`
(class `DeLonghiAPI`): the authentication state machine
(`_get_new_access_token`, `authenticate`, `refresh_access_token`) and the
authenticated request layer (`_get_request`, `_post_request`,
`get_devices`, `get_device_properties`, `get_property_value`, and the
`set_*` convenience wrappers).

HTTP transports are modelled as oracles (explicit response values or
functions from the attached token to a response); the mutable fields
`self.access_token` / `self.refresh_token` become an explicit `ApiState`
threaded through each operation.  Python `None` becomes `Option.none`;
Python truthiness of a token string (`if not self.refresh_token`) is the
explicit `truthy` test (none and the empty string are falsy).
-/

namespace DelonghiComfort

/-- A JSON value as far as the device API layer observes it: the reads only
test `isinstance(response, list)` and index dictionaries by string keys. -/
inductive Json where
  | arr (elems : List Json)
  | obj (fields : List (String × Json))
  | str (s : String)
  | num (n : Int)
  | bool (b : Bool)
  | null

/-- `isinstance(response, list)` on a decoded JSON body. -/
def Json.isList : Json → Bool
  | .arr _ => true
  | _ => false

/-- The mutable token fields of the `DeLonghiAPI` object:
`self.access_token` and `self.refresh_token` (both initialised to `None`). -/
structure ApiState where
  access_token : Option String
  refresh_token : Option String
  deriving Repr, DecidableEq

/-- Python truthiness of an optional token string: `None` and `""` are
falsy, every other string is truthy. -/
def truthy : Option String → Bool
  | none => false
  | some s => !s.isEmpty

/-- Outcome of one HTTP attempt in `_get_request` / `_post_request`:
either `raise_for_status` passes and `response.json()` decodes (`success`),
or an `aiohttp.ClientResponseError` carrying a status is raised
(`clientError`), or some other exception is raised (`exn`). -/
inductive HttpOutcome where
  | success (body : Json)
  | clientError (status : Nat)
  | exn

/-- Result of `_get_request` / `_post_request` as seen by its caller:
the coroutine either returns a value (`ret`) or lets an exception
propagate (`raised`) — the retry attempt inside the
`except ClientResponseError` handler is not protected by any
further handler, so its failure propagates to the calling wrapper. -/
inductive DevResult (α : Type) where
  | ret (v : Option α)
  | raised

/-- `_get_request` (api.py lines 428–453).  `first` is the outcome of the
initial attempt (made with `self.access_token` attached);
`retryHttp tok` is the outcome of a retry carrying token `tok`;
`refreshSem` is the semantics of `self.refresh_access_token()`
(it returns the new token and may update `self.refresh_token`).
Returns the caller-visible result, the final state, the number of
`refresh_access_token` invocations, and the trace of tokens attached to
the HTTP attempts actually made. -/
def getRequestSem (st : ApiState) (first : HttpOutcome)
    (retryHttp : Option String → HttpOutcome)
    (refreshSem : ApiState → Option String × ApiState) :
    DevResult Json × ApiState × Nat × List (Option String) :=
  match first with
  | .success body => (.ret (some body), st, 0, [st.access_token])
  | .clientError status =>
    if status = 401 then
      -- self.access_token = await self.refresh_access_token()
      let (tok, st1) := refreshSem st
      let st2 := { st1 with access_token := tok }
      if truthy tok then
        match retryHttp tok with
        | .success body => (.ret (some body), st2, 1, [st.access_token, tok])
        | _ => (.raised, st2, 1, [st.access_token, tok])
      else
        (.ret none, st2, 1, [st.access_token])
    else
      (.ret none, st, 0, [st.access_token])
  | .exn => (.ret none, st, 0, [st.access_token])

/-- `_post_request` (api.py lines 455–484): identical control flow to
`_get_request`; the posted body does not influence the retry logic. -/
def postRequestSem (st : ApiState) (first : HttpOutcome)
    (retryHttp : Option String → HttpOutcome)
    (refreshSem : ApiState → Option String × ApiState) :
    DevResult Json × ApiState × Nat × List (Option String) :=
  match first with
  | .success body => (.ret (some body), st, 0, [st.access_token])
  | .clientError status =>
    if status = 401 then
      let (tok, st1) := refreshSem st
      let st2 := { st1 with access_token := tok }
      if truthy tok then
        match retryHttp tok with
        | .success body => (.ret (some body), st2, 1, [st.access_token, tok])
        | _ => (.raised, st2, 1, [st.access_token, tok])
      else
        (.ret none, st2, 1, [st.access_token])
    else
      (.ret none, st, 0, [st.access_token])
  | .exn => (.ret none, st, 0, [st.access_token])

/-- Python `str.split` with a non-empty separator, on character lists:
scan left to right, emitting a piece at each non-overlapping occurrence of
the separator.  `acc` holds the current piece reversed; `fuel` bounds the
recursion structurally and is always at least the input length plus one at
the top-level call, so the `0` branch is never reached. -/
def pySplitGo (sep : List Char) : Nat → List Char → List Char → List (List Char)
  | 0, acc, cs => [acc.reverse ++ cs]
  | fuel + 1, acc, cs =>
    if sep.isPrefixOf cs then
      acc.reverse :: pySplitGo sep fuel [] (cs.drop sep.length)
    else
      match cs with
      | [] => [acc.reverse]
      | c :: cs' => pySplitGo sep fuel (c :: acc) cs'

/-- Python `str.split(sep)` for a non-empty `sep` (the separators in this
code are non-empty literals); always returns a non-empty list, with one
more piece than there are non-overlapping occurrences of `sep`. -/
def pySplit (s sep : String) : List String :=
  if sep.isEmpty then [s]
  else (pySplitGo sep.toList (s.toList.length + 1) [] s.toList).map String.mk

/-- `urllib.parse.urlparse(url).query`: the part of the URL after the first
question mark, with any fragment (after the first hash) removed. -/
def urlQuery (url : String) : String :=
  let noFrag := (pySplit url "#").headD ""
  match pySplit noFrag "?" with
  | [] => ""
  | [_] => ""
  | _ :: rest => String.intercalate "?" rest

/-- `urllib.parse.parse_qs` on a query string, restricted to what
`get_query_param` observes: pairs split on the ampersand, key and value
split at the first equals sign, pairs without an equals sign or with an
empty value dropped (`keep_blank_values` defaults to false).  The query
values are treated as opaque, so percent-decoding is not modelled. -/
def queryPairs (query : String) : List (String × String) :=
  (pySplit query "&").filterMap fun pair =>
    match pySplit pair "=" with
    | [] => none
    | [_] => none
    | k :: v :: vs =>
      let value := String.intercalate "=" (v :: vs)
      if value.isEmpty then none else some (k, value)

/-- `get_query_param` (api.py lines 44–48): the first value for `param`
in the URL's query string, or `None` when the parameter is absent. -/
def get_query_param (url : String) (param : String) : Option String :=
  (((queryPairs (urlQuery url)).filter fun kv => kv.1 = param).head?).map fun kv => kv.2

/-- The literal scraped for in step 5's consent page HTML. -/
def consentMarker : String := "const consentObj2Sig = '"

/-- The terminator of the scraped signature: a quote followed by a
semicolon. -/
def consentEnd : String := "';"

/-- Step 5's signature scrape (api.py line 225):
`consent_text.split("const consentObj2Sig = '")[1].split("';")[0]`.
Indexing `[1]` raises `IndexError` when the marker is absent (the split
yields a single piece); that abort is modelled as `none`. -/
def extractConsentSig (text : String) : Option String :=
  match (pySplit text consentMarker).get? 1 with
  | none => none
  | some rest => (pySplit rest consentEnd).head?

/-- The `User-Agent` header value attached to a request, abstracted to the
configuration constant used (`BROWSER_USER_AGENT`, `TOKEN_USER_AGENT`,
`API_USER_AGENT` from const.py; the concrete strings are opaque). -/
inductive UA where
  | browser
  | token
  | api
  deriving Repr, DecidableEq

/-- One HTTP request issued by the login flow: which of the eight protocol
steps issued it and which `User-Agent` constant its headers carry. -/
structure Request where
  step : Nat
  ua : UA
  deriving Repr, DecidableEq

/-- Step 2's parsed body: `ucid`, `gmid`, `gmidTicket`. -/
structure GigyaIds where
  ucid : String
  gmid : String
  gmidTicket : String
  deriving Repr, DecidableEq

/-- Step 4's parsed body: `UID`, `UIDSignature`, `signatureTimestamp`. -/
structure UserInfo where
  uid : String
  uidSignature : String
  signatureTimestamp : String
  deriving Repr, DecidableEq

/-- The upstream responses one execution of `_get_new_access_token`
observes, one field per protocol step.  `none` models the absence of the
header / JSON key the code extracts (a `KeyError` inside the `try`),
except for `s3_statusCode`, where it models `login_data.get("statusCode")`
returning `None`. -/
structure LoginWorld where
  s1_location : Option String
  s2_ids : Option GigyaIds
  s3_statusCode : Option Int
  s3_login_token : Option String
  s4_info : Option UserInfo
  s5_consentText : String
  s6_location : Option String
  s7_access_token : Option String
  s8_refresh_token : Option String
  s8_access_token : Option String
  deriving Repr, DecidableEq

/-- Outcome of `_get_new_access_token`, instrumented with the failure
point.  In Python every failure returns `None` (the generic
`except Exception` logs and returns `None`; the step-3 status check
returns `None` explicitly); the constructor records which stage's
extraction aborted the attempt. -/
inductive LoginOutcome where
  | success (token : String)
  | parseFail (stage : Nat)
  | loginRejected
  deriving Repr, DecidableEq

/-- The `str | None` value `_get_new_access_token` actually returns to its
Python callers. -/
def LoginOutcome.toOption : LoginOutcome → Option String
  | .success t => some t
  | .parseFail _ => none
  | .loginRejected => none

/-- `_get_new_access_token` (api.py lines 63–288): the eight-step
authentication flow.  Returns the instrumented outcome, the final object
state, and the trace of HTTP requests issued (step number and the
`User-Agent` constant its headers carry).  Mutations: only
`self.refresh_token` is assigned, at step 8, before
`ayla_data["access_token"]` is read — so a step-8 body carrying
`refresh_token` but no `access_token` updates the state even though the
attempt then fails. -/
def get_new_access_token (st : ApiState) (w : LoginWorld) :
    LoginOutcome × ApiState × List Request :=
  -- Step 1: authorize; context is scraped from the Location header.
  let reqs := [Request.mk 1 .browser]
  match w.s1_location with
  | none => (.parseFail 1, st, reqs)
  | some loc =>
    let _context : Option String := get_query_param loc "context"
    -- Step 2: socialize.getIDs.
    let reqs := reqs ++ [Request.mk 2 .browser]
    match w.s2_ids with
    | none => (.parseFail 2, st, reqs)
    | some _ids =>
      -- Step 3: accounts.login.
      let reqs := reqs ++ [Request.mk 3 .browser]
      if w.s3_statusCode ≠ some 200 then (.loginRejected, st, reqs)
      else
        match w.s3_login_token with
        | none => (.parseFail 3, st, reqs)
        | some _login_token =>
          -- Step 4: socialize.getUserInfo.
          let reqs := reqs ++ [Request.mk 4 .browser]
          match w.s4_info with
          | none => (.parseFail 4, st, reqs)
          | some _info =>
            -- Step 5: consent page scrape.
            let reqs := reqs ++ [Request.mk 5 .browser]
            match extractConsentSig w.s5_consentText with
            | none => (.parseFail 5, st, reqs)
            | some _sig =>
              -- Step 6: authorize/continue; code scraped from Location.
              let reqs := reqs ++ [Request.mk 6 .browser]
              match w.s6_location with
              | none => (.parseFail 6, st, reqs)
              | some loc6 =>
                let _code : Option String := get_query_param loc6 "code"
                -- Step 7: OIDC token endpoint.
                let reqs := reqs ++ [Request.mk 7 .token]
                match w.s7_access_token with
                | none => (.parseFail 7, st, reqs)
                | some _idp_token =>
                  -- Step 8: Ayla token_sign_in.
                  let reqs := reqs ++ [Request.mk 8 .token]
                  match w.s8_refresh_token with
                  | none => (.parseFail 8, st, reqs)
                  | some rt =>
                    let st := { st with refresh_token := some rt }
                    match w.s8_access_token with
                    | none => (.parseFail 8, st, reqs)
                    | some tok => (.success tok, st, reqs)

/-- `authenticate` (api.py lines 54–61):
`self.access_token = await self._get_new_access_token()`, then
`return self.access_token is not None`.  Note the assignment happens
unconditionally, so a failed flow overwrites any previously held
access token with `None`. -/
def authenticate (st : ApiState) (w : LoginWorld) : Bool × ApiState :=
  let (out, st1, _) := get_new_access_token st w
  let st2 := { st1 with access_token := out.toOption }
  (st2.access_token.isSome, st2)

/-- Outcome of the refresh endpoint call inside `refresh_access_token`:
a response with an HTTP status and the `access_token` / `refresh_token`
fields of its JSON body (`none` = key absent: for `access_token` that is a
`KeyError`, for `refresh_token` `data.get` returns `None`), or a raised
exception (`exn`, covering transport errors and JSON decode failures). -/
inductive RefreshHttp where
  | resp (status : Nat) (body_access : Option String) (body_refresh : Option String)
  | exn
  deriving Repr, DecidableEq

/-- `refresh_access_token` (api.py lines 290–319).  `loginW` drives the
fallback `_get_new_access_token` calls.  Returns the token result, the
final state, and how many times the full login flow was invoked. -/
def refresh_access_token (st : ApiState) (http : RefreshHttp) (loginW : LoginWorld) :
    Option String × ApiState × Nat :=
  if truthy st.refresh_token = false then
    -- `if not self.refresh_token: return await self._get_new_access_token()`
    let (out, st1, _) := get_new_access_token st loginW
    (out.toOption, st1, 1)
  else
    match http with
    | .resp status body_access body_refresh =>
      if status = 200 then
        match body_access with
        | some a =>
          -- `if new_refresh_token: self.refresh_token = new_refresh_token`
          let st1 := if truthy body_refresh then { st with refresh_token := body_refresh } else st
          (some a, st1, 0)
        | none =>
          -- KeyError on data["access_token"], caught by `except`: fall back.
          let (out, st1, _) := get_new_access_token st loginW
          (out.toOption, st1, 1)
      else
        -- non-200: `return await self._get_new_access_token()`
        let (out, st1, _) := get_new_access_token st loginW
        (out.toOption, st1, 1)
    | .exn =>
      let (out, st1, _) := get_new_access_token st loginW
      (out.toOption, st1, 1)

/-- How `get_devices` / `get_device_properties` fold the result of
`_get_request` into their return value:
`return response if isinstance(response, list) else []`, with the
surrounding `except Exception` returning `[]` when the request raised. -/
def listResult : DevResult Json → Json
  | .ret (some (Json.arr l)) => Json.arr l
  | .ret _ => Json.arr []
  | .raised => Json.arr []

/-- How the `set_*` wrappers fold the result of `_post_request` into their
boolean: `return response is not None`, with the surrounding
`except Exception` returning `False` when the request raised. -/
def boolResult : DevResult Json → Bool
  | .ret v => v.isSome
  | .raised => false

/-- `get_devices` (api.py lines 321–332): authenticate first if no access
token is held (returning `[]` when that fails), then `_get_request` on
`apiv1/devices.json`, folding the outcome through
`response if isinstance(response, list) else []` and the
`except Exception` handler. -/
def get_devices (st : ApiState) (loginW : LoginWorld) (first : HttpOutcome)
    (retryHttp : Option String → HttpOutcome)
    (refreshSem : ApiState → Option String × ApiState) : Json × ApiState :=
  if truthy st.access_token = false then
    let (ok, st1) := authenticate st loginW
    if ok = false then (Json.arr [], st1)
    else
      let (res, st2, _, _) := getRequestSem st1 first retryHttp refreshSem
      (listResult res, st2)
  else
    let (res, st2, _, _) := getRequestSem st first retryHttp refreshSem
    (listResult res, st2)

/-- `get_device_properties` (api.py lines 334–345): same shape as
`get_devices` except that the failed-authentication branch returns `{}`
(the empty dict, line 338) while every other failure path returns `[]`. -/
def get_device_properties (st : ApiState) (dsn : String) (loginW : LoginWorld)
    (first : HttpOutcome) (retryHttp : Option String → HttpOutcome)
    (refreshSem : ApiState → Option String × ApiState) : Json × ApiState :=
  let _ := dsn
  if truthy st.access_token = false then
    let (ok, st1) := authenticate st loginW
    if ok = false then (Json.obj [], st1)
    else
      let (res, st2, _, _) := getRequestSem st1 first retryHttp refreshSem
      (listResult res, st2)
  else
    let (res, st2, _, _) := getRequestSem st first retryHttp refreshSem
    (listResult res, st2)

/-- The inner `prop["property"]` dictionary of one property-list entry, as
far as `get_property_value` reads it: a `name` and a `value`. -/
structure PropInner where
  name : String
  value : Json

/-- One entry of the list returned by the properties endpoint; the
`property` field is `some` exactly when `"property" in prop` holds. -/
structure PropEntry where
  property : Option PropInner

/-- `get_property_value` (api.py lines 347–354): scan the entries in list
order and return `prop["property"]["value"]` of the first entry whose
`property.name` equals `property_name`; `None` when no entry matches. -/
def get_property_value (properties : List PropEntry) (property_name : String) :
    Option Json :=
  match properties with
  | [] => none
  | prop :: rest =>
    match prop.property with
    | some inner =>
      if inner.name = property_name then some inner.value
      else get_property_value rest property_name
    | none => get_property_value rest property_name

/-- Formalisation of claim C10's wording, for comparison with
`get_property_value`: the value a single entry contributes — `some` of
its `property.value` exactly when the entry has a `property` whose
`name` equals the requested name. -/
def matchedValue (property_name : String) (p : PropEntry) : Option Json :=
  match p.property with
  | some inner => if inner.name = property_name then some inner.value else none
  | none => none

/-- A datapoint value as placed in a wrapper's request body.  Python
passes ints, floats and strings through dynamically; floats occur only as
opaque pass-through values (no arithmetic), modelled as rationals. -/
inductive DPValue where
  | int (n : Int)
  | float (q : Rat)
  | str (s : String)
  deriving Repr, DecidableEq

/-- The inner `{"value": v}` object of a datapoint POST body. -/
structure Datapoint where
  value : DPValue
  deriving Repr, DecidableEq

/-- The `{"datapoint": {"value": v}}` body each `set_*` wrapper posts. -/
structure DatapointBody where
  datapoint : Datapoint
  deriving Repr, DecidableEq

/-- The request a `set_*` wrapper hands to `_post_request`: the API path
and the JSON body. -/
structure PostCall where
  path : String
  body : DatapointBody
  deriving Repr, DecidableEq

/-- `set_device_mode` (api.py lines 356–366): the request it posts. -/
def set_device_mode_call (dsn : String) (mode : Int) : PostCall :=
  { path := "apiv1/dsns/" ++ dsn ++ "/properties/set_device_mode/datapoints.json"
    body := { datapoint := { value := .int mode } } }

/-- `set_temperature_setpoint` (api.py lines 368–378): the request it
posts; the float value is forwarded as-is. -/
def set_temperature_setpoint_call (dsn : String) (temperature : Rat) : PostCall :=
  { path := "apiv1/dsns/" ++ dsn ++ "/properties/set_temp_setpoint/datapoints.json"
    body := { datapoint := { value := .float temperature } } }

/-- `set_status` (api.py lines 380–390): the request it posts. -/
def set_status_call (dsn : String) (status : Int) : PostCall :=
  { path := "apiv1/dsns/" ++ dsn ++ "/properties/set_status/datapoints.json"
    body := { datapoint := { value := .int status } } }

/-- `set_silent_mode` (api.py lines 392–402): the request it posts. -/
def set_silent_mode_call (dsn : String) (status : Int) : PostCall :=
  { path := "apiv1/dsns/" ++ dsn ++ "/properties/set_silent_function/datapoints.json"
    body := { datapoint := { value := .int status } } }

/-- `set_humidity_setpoint` (api.py lines 404–414): the request it posts. -/
def set_humidity_setpoint_call (dsn : String) (humidity : Int) : PostCall :=
  { path := "apiv1/dsns/" ++ dsn ++ "/properties/humidity_setpoint/datapoints.json"
    body := { datapoint := { value := .int humidity } } }

/-- `set_fan_speed` (api.py lines 416–426): the request it posts.  The
source converts the integer with `str(fan_speed)` before placing it in
the body (line 421). -/
def set_fan_speed_call (dsn : String) (fan_speed : Int) : PostCall :=
  { path := "apiv1/dsns/" ++ dsn ++ "/properties/set_int_fan_speed/datapoints.json"
    body := { datapoint := { value := .str (toString fan_speed) } } }

/-- Result component of a `_get_request` / `_post_request` run. -/
def reqResult (r : DevResult Json × ApiState × Nat × List (Option String)) :
    DevResult Json := r.1

/-- Final-state component of a `_get_request` / `_post_request` run. -/
def reqState (r : DevResult Json × ApiState × Nat × List (Option String)) :
    ApiState := r.2.1

/-- Number of `refresh_access_token` invocations in a
`_get_request` / `_post_request` run. -/
def refreshCalls (r : DevResult Json × ApiState × Nat × List (Option String)) :
    Nat := r.2.2.1

/-- Tokens attached to the HTTP attempts of a
`_get_request` / `_post_request` run, in order. -/
def attempts (r : DevResult Json × ApiState × Nat × List (Option String)) :
    List (Option String) := r.2.2.2

/-- The full eight-request trace of a login attempt that reaches step 8,
with the `User-Agent` constant each step's headers carry in the source
(api.py lines 73, 88, 152, 188, 212, 230, 255, 273). -/
def fullReqs : List Request :=
  [⟨1, .browser⟩, ⟨2, .browser⟩, ⟨3, .browser⟩, ⟨4, .browser⟩,
   ⟨5, .browser⟩, ⟨6, .browser⟩, ⟨7, .token⟩, ⟨8, .token⟩]

/-- The per-step `User-Agent` configuration table actually implemented:
`BROWSER_USER_AGENT` for steps 1–6, `TOKEN_USER_AGENT` for steps 7–8. -/
def stepUA (step : Nat) : UA :=
  if step ≤ 6 then .browser else .token

/-- A fixture world in which every protocol step succeeds: used to
evaluate the flow at concrete inputs. -/
def okWorld : LoginWorld where
  s1_location := some "https://google.it/?context=ctx1"
  s2_ids := some ⟨"ucid1", "gmid1", "ticket1"⟩
  s3_statusCode := some 200
  s3_login_token := some "lt1"
  s4_info := some ⟨"uid1", "sig1", "ts1"⟩
  s5_consentText := "const consentObj2Sig = 'SIG1';"
  s6_location := some "https://google.it/?code=code1"
  s7_access_token := some "idp1"
  s8_refresh_token := some "rt1"
  s8_access_token := some "at1"

/-! ## Structural lemmas about the login flow -/

lemma LoginOutcome.toOption_eq_some {out : LoginOutcome} {t : String} :
    out.toOption = some t ↔ out = .success t := by
  cases out <;> simp [LoginOutcome.toOption]

lemma gnat_state (st : ApiState) (w : LoginWorld) :
    ((get_new_access_token st w).2.1.access_token = st.access_token) ∧
    ((get_new_access_token st w).2.1.refresh_token = st.refresh_token ∨
     (get_new_access_token st w).2.1.refresh_token = w.s8_refresh_token) ∧
    (∀ t, (get_new_access_token st w).1 = .success t →
       w.s8_access_token = some t ∧
       (get_new_access_token st w).2.1.refresh_token = w.s8_refresh_token) := by
  obtain ⟨s1, s2, s3, s3t, s4, s5, s6, s7, s8r, s8a⟩ := w
  simp only [get_new_access_token]
  rcases s1 with _ | loc
  · simp
  rcases s2 with _ | ids
  · simp
  by_cases h3 : s3 = some 200
  · simp only [h3, ne_eq, not_true_eq_false, if_false, if_neg]
    rcases s3t with _ | lt
    · simp
    rcases s4 with _ | info
    · simp
    rcases hx : extractConsentSig s5 with _ | sig
    · simp [hx]
    rcases s6 with _ | loc6
    · simp [hx]
    rcases s7 with _ | idp
    · simp [hx]
    rcases s8r with _ | rt
    · simp [hx]
    rcases s8a with _ | tok
    · simp [hx]
    · simp [hx]
  · simp [h3]

lemma gnat_trace_prefix (st : ApiState) (w : LoginWorld) :
    ∃ k, (get_new_access_token st w).2.2 = fullReqs.take k := by
  obtain ⟨s1, s2, s3, s3t, s4, s5, s6, s7, s8r, s8a⟩ := w
  simp only [get_new_access_token]
  rcases s1 with _ | loc
  · exact ⟨1, rfl⟩
  rcases s2 with _ | ids
  · exact ⟨2, rfl⟩
  by_cases h3 : s3 = some 200
  · subst h3
    rcases s3t with _ | lt
    · exact ⟨3, rfl⟩
    rcases s4 with _ | info
    · exact ⟨4, rfl⟩
    rcases hx : extractConsentSig s5 with _ | sig
    · simp only [hx]
      exact ⟨5, rfl⟩
    rcases s6 with _ | loc6
    · simp only [hx]
      exact ⟨6, rfl⟩
    rcases s7 with _ | idp
    · simp only [hx]
      exact ⟨7, rfl⟩
    rcases s8r with _ | rt
    · simp only [hx]
      exact ⟨8, rfl⟩
    rcases s8a with _ | tok
    · simp only [hx]
      exact ⟨8, rfl⟩
    · simp only [hx]
      exact ⟨8, rfl⟩
  · rw [if_pos h3]
    exact ⟨3, rfl⟩

/-! ## Claim theorems -/

/-- C2 (amended): the login attempt is not atomic in the claimed sense.
Concretely: starting from a state holding an old access token and an old
refresh token, an attempt whose step-8 response carries a
refresh_token but no access_token fails (authenticate returns false) yet
changes both stored tokens — access_token is cleared and refresh_token is
replaced. -/
theorem C2_counterexample :
    (authenticate ⟨some "old", some "r0"⟩
        { okWorld with s8_access_token := none }).1 = false ∧
    (authenticate ⟨some "old", some "r0"⟩
        { okWorld with s8_access_token := none }).2.access_token ≠ some "old" ∧
    (authenticate ⟨some "old", some "r0"⟩
        { okWorld with s8_access_token := none }).2.refresh_token ≠ some "r0" := by
  decide

/-- C2 (amended): `authenticate` either stores a complete token pair or
fails, but a failed attempt exposes partial state: it always overwrites
`access_token` (with `None` on failure), and `refresh_token` is either
untouched or set to the step-8 response's refresh_token — the latter also
happens on an attempt that then fails on a missing step-8 access_token. -/
theorem C2_authenticate_partial_state (st : ApiState) (w : LoginWorld) :
    ((authenticate st w).2.access_token = (get_new_access_token st w).1.toOption) ∧
    ((authenticate st w).1 = false → (authenticate st w).2.access_token = none) ∧
    ((authenticate st w).2.refresh_token = st.refresh_token ∨
     (authenticate st w).2.refresh_token = w.s8_refresh_token) ∧
    ((authenticate st w).1 = true →
       (∃ a, (authenticate st w).2.access_token = some a) ∧
       (authenticate st w).2.refresh_token = w.s8_refresh_token) := by
  obtain ⟨hacc, hrt, hsucc⟩ := gnat_state st w
  refine ⟨rfl, ?_, ?_, ?_⟩
  · intro hfail
    simpa [authenticate, Option.isSome_iff_exists] using hfail
  · simpa [authenticate] using hrt
  · intro hok
    simp only [authenticate, Option.isSome_iff_exists] at hok ⊢
    obtain ⟨a, ha⟩ := hok
    refine ⟨⟨a, ha⟩, ?_⟩
    exact (hsucc a (LoginOutcome.toOption_eq_some.mp ha)).2

/-- C2 witness for the amended theorem: at the all-success fixture world
from the empty state, the attempt succeeds and stores the step-8 pair. -/
theorem C2_authenticate_partial_state_witness :
    (∃ a, (authenticate ⟨none, none⟩ okWorld).2.access_token = some a) ∧
    (authenticate ⟨none, none⟩ okWorld).2.refresh_token = okWorld.s8_refresh_token :=
  (C2_authenticate_partial_state ⟨none, none⟩ okWorld).2.2.2 (by decide)

/-- C6: when the flow reaches step 5 and the consent page body does not
contain the marker (the split yields no second piece), the attempt aborts
at the consent stage: the result is the stage-5 parse failure (surfaced to
callers as None, not an empty signature), the stored state is untouched,
and the request trace stops at step 5 — no step 6, 7 or 8 request is
made. -/
theorem C6_consent_marker_missing (st : ApiState) (w : LoginWorld)
    (loc : String) (ids : GigyaIds) (lt : String) (info : UserInfo)
    (h1 : w.s1_location = some loc) (h2 : w.s2_ids = some ids)
    (h3 : w.s3_statusCode = some 200) (h4 : w.s3_login_token = some lt)
    (h5 : w.s4_info = some info)
    (h6 : extractConsentSig w.s5_consentText = none) :
    get_new_access_token st w =
      (.parseFail 5, st,
       [⟨1, .browser⟩, ⟨2, .browser⟩, ⟨3, .browser⟩, ⟨4, .browser⟩, ⟨5, .browser⟩]) := by
  simp [get_new_access_token, h1, h2, h3, h4, h5, h6]

/-- C6 witness: a concrete consent page without the marker aborts the
flow at stage 5 with only the first five requests issued. -/
theorem C6_consent_marker_missing_witness :
    get_new_access_token ⟨none, none⟩ { okWorld with s5_consentText := "no marker here" } =
      (.parseFail 5, ⟨none, none⟩,
       [⟨1, .browser⟩, ⟨2, .browser⟩, ⟨3, .browser⟩, ⟨4, .browser⟩, ⟨5, .browser⟩]) :=
  C6_consent_marker_missing ⟨none, none⟩ _ _ ⟨"ucid1", "gmid1", "ticket1"⟩ "lt1"
    ⟨"uid1", "sig1", "ts1"⟩ rfl rfl rfl rfl rfl (by decide)

/-- C7: when steps 1–2 succeed and the step-3 response carries an embedded
statusCode different from 200, the attempt fails on the explicit
server-reported-rejection branch (the loginRejected outcome, surfaced as
None), the stored state is untouched, and the trace stops at step 3 — the
requests of steps 4 through 8 are never made. -/
theorem C7_login_rejected (st : ApiState) (w : LoginWorld)
    (loc : String) (ids : GigyaIds) (sc : Int)
    (h1 : w.s1_location = some loc) (h2 : w.s2_ids = some ids)
    (h3 : w.s3_statusCode = some sc) (hsc : sc ≠ 200) :
    get_new_access_token st w =
      (.loginRejected, st, [⟨1, .browser⟩, ⟨2, .browser⟩, ⟨3, .browser⟩]) := by
  simp [get_new_access_token, h1, h2, h3, hsc]

/-- C7 witness: a concrete embedded status 403 at step 3 stops the flow
after the third request with the rejection outcome. -/
theorem C7_login_rejected_witness :
    get_new_access_token ⟨none, none⟩ { okWorld with s3_statusCode := some 403 } =
      (.loginRejected, ⟨none, none⟩, [⟨1, .browser⟩, ⟨2, .browser⟩, ⟨3, .browser⟩]) :=
  C7_login_rejected ⟨none, none⟩ _ _ ⟨"ucid1", "gmid1", "ticket1"⟩ 403
    rfl rfl rfl (by decide)

/-- C9 (counterexample): the claim puts step 3 in the token-service
User-Agent group, but in the code step 3's request carries the browser
User-Agent constant: in a fully successful run the trace's step-3 request
is browser-tagged, and no token-tagged step-3 request exists. -/
theorem C9_counterexample :
    Request.mk 3 UA.browser ∈ (get_new_access_token ⟨none, none⟩ okWorld).2.2 ∧
    Request.mk 3 UA.token ∉ (get_new_access_token ⟨none, none⟩ okWorld).2.2 := by
  decide

/-- C9 (amended): every request the login flow issues carries the
User-Agent constant of the fixed table implemented in the source —
the browser constant for steps 1–6 and the token-service constant for
steps 7 and 8 (step 3 included in the browser group). -/
theorem C9_step_user_agents (st : ApiState) (w : LoginWorld) :
    ∀ r ∈ (get_new_access_token st w).2.2, r.ua = stepUA r.step := by
  obtain ⟨k, hk⟩ := gnat_trace_prefix st w
  intro r hr
  rw [hk] at hr
  have hmem : r ∈ fullReqs := List.take_subset k fullReqs hr
  fin_cases hmem <;> rfl

/-- C9 witness for the amended theorem: in a fully successful concrete
run, the step-7 request carries the token-service constant. -/
theorem C9_step_user_agents_witness :
    (Request.mk 7 UA.token).ua = stepUA (Request.mk 7 UA.token).step :=
  C9_step_user_agents ⟨none, none⟩ okWorld (Request.mk 7 UA.token) (by decide)

lemma truthy_some {s : String} (h : s ≠ "") : truthy (some s) = true := by
  have he : s.isEmpty = false := by
    cases hb : s.isEmpty
    · rfl
    · exact absurd ((String.isEmpty_iff s).mp hb) h
  simp [truthy, he]

/-- C10: scanning semantics of the property lookup — `get_property_value`
returns exactly the first (in list order) entry's `property.value` whose
`property.name` equals the requested name, and `none` when no entry
matches; on the empty list it returns `none` (and, being a pure function
on an immutable list, it neither raises nor modifies its input). -/
theorem C10_get_property_value_first_match (props : List PropEntry)
    (property_name : String) :
    get_property_value props property_name
      = props.findSome? (matchedValue property_name) ∧
    get_property_value ([] : List PropEntry) property_name = none := by
  refine ⟨?_, rfl⟩
  induction props with
  | nil => rfl
  | cons p rest ih =>
    cases hp : p.property with
    | none => simp [get_property_value, List.findSome?_cons, matchedValue, hp, ih]
    | some inner =>
      by_cases hn : inner.name = property_name
      · simp [get_property_value, List.findSome?_cons, matchedValue, hp, hn]
      · simp [get_property_value, List.findSome?_cons, matchedValue, hp, hn, ih]

/-- C8 (counterexample): `set_fan_speed` does not pass the caller's value
through unmodified — for the input 3 it posts the JSON string "3"
(`str(fan_speed)`), not the number 3. -/
theorem C8_counterexample :
    set_fan_speed_call "D" 3 ≠
      { path := "apiv1/dsns/D/properties/set_int_fan_speed/datapoints.json"
        body := { datapoint := { value := .int 3 } } } ∧
    set_fan_speed_call "D" 3 =
      { path := "apiv1/dsns/D/properties/set_int_fan_speed/datapoints.json"
        body := { datapoint := { value := .str "3" } } } := by
  decide

/-- C8 (amended): each convenience wrapper posts the body
`{"datapoint": {"value": v}}` to its documented datapoint path with no
clamping or range validation; five of the six forward the caller's value
unchanged, while `set_fan_speed` posts the decimal string representation
of its integer argument. -/
theorem C8_wrapper_requests (dsn : String)
    (mode status silent humidity fan_speed : Int) (temperature : Rat) :
    set_device_mode_call dsn mode =
      { path := "apiv1/dsns/" ++ dsn ++ "/properties/set_device_mode/datapoints.json"
        body := { datapoint := { value := .int mode } } } ∧
    set_temperature_setpoint_call dsn temperature =
      { path := "apiv1/dsns/" ++ dsn ++ "/properties/set_temp_setpoint/datapoints.json"
        body := { datapoint := { value := .float temperature } } } ∧
    set_status_call dsn status =
      { path := "apiv1/dsns/" ++ dsn ++ "/properties/set_status/datapoints.json"
        body := { datapoint := { value := .int status } } } ∧
    set_silent_mode_call dsn silent =
      { path := "apiv1/dsns/" ++ dsn ++ "/properties/set_silent_function/datapoints.json"
        body := { datapoint := { value := .int silent } } } ∧
    set_humidity_setpoint_call dsn humidity =
      { path := "apiv1/dsns/" ++ dsn ++ "/properties/humidity_setpoint/datapoints.json"
        body := { datapoint := { value := .int humidity } } } ∧
    set_fan_speed_call dsn fan_speed =
      { path := "apiv1/dsns/" ++ dsn ++ "/properties/set_int_fan_speed/datapoints.json"
        body := { datapoint := { value := .str (toString fan_speed) } } } :=
  ⟨rfl, rfl, rfl, rfl, rfl, rfl⟩

/-- C3: with a (truthy) refresh_token stored and the refresh endpoint
answering 200 with an access_token: when the body omits refresh_token the
stored one is preserved (the state is untouched), when it supplies a
non-empty replacement that replacement supersedes the stored one, and in
both cases the returned value is the response's access_token, with no
fallback login. -/
theorem C3_refresh_200_frame (st : ApiState) (loginW : LoginWorld) (rt a : String)
    (br : Option String) (h1 : st.refresh_token = some rt) (h2 : rt ≠ "") :
    (br = none →
      refresh_access_token st (.resp 200 (some a) br) loginW = (some a, st, 0)) ∧
    (∀ s, br = some s → s ≠ "" →
      refresh_access_token st (.resp 200 (some a) br) loginW
        = (some a, { st with refresh_token := some s }, 0)) := by
  have htr : truthy st.refresh_token = true := by rw [h1]; exact truthy_some h2
  constructor
  · rintro rfl
    simp only [refresh_access_token, htr]
    simp [truthy]
  · rintro s rfl hs
    simp only [refresh_access_token, htr]
    simp [truthy_some hs]

/-- C3 witness: concrete 200 responses — one omitting refresh_token
(stored token kept), one supplying "r1" (stored token replaced); both
return the new access_token. -/
theorem C3_refresh_200_frame_witness :
    refresh_access_token ⟨none, some "r0"⟩ (.resp 200 (some "na") none) okWorld
      = (some "na", ⟨none, some "r0"⟩, 0) ∧
    refresh_access_token ⟨none, some "r0"⟩ (.resp 200 (some "na") (some "r1")) okWorld
      = (some "na", ⟨none, some "r1"⟩, 0) :=
  ⟨(C3_refresh_200_frame ⟨none, some "r0"⟩ okWorld "r0" "na" none rfl
      (by decide)).1 rfl,
   (C3_refresh_200_frame ⟨none, some "r0"⟩ okWorld "r0" "na" (some "r1") rfl
      (by decide)).2 "r1" rfl (by decide)⟩

/-- C4: `refresh_access_token` delegates to the full login flow — with
exactly one login invocation, returning the flow's own result and state —
whenever no (truthy) refresh_token is held, and likewise whenever the
refresh endpoint answers with a non-200 status or the call raises; it
never produces a result in those cases without running the full login. -/
theorem C4_refresh_fallback (st : ApiState) (http : RefreshHttp) (loginW : LoginWorld) :
    (truthy st.refresh_token = false →
      refresh_access_token st http loginW =
        ((get_new_access_token st loginW).1.toOption,
         (get_new_access_token st loginW).2.1, 1)) ∧
    (∀ status ba br, truthy st.refresh_token = true → http = .resp status ba br →
      status ≠ 200 →
      refresh_access_token st http loginW =
        ((get_new_access_token st loginW).1.toOption,
         (get_new_access_token st loginW).2.1, 1)) ∧
    (truthy st.refresh_token = true → http = .exn →
      refresh_access_token st http loginW =
        ((get_new_access_token st loginW).1.toOption,
         (get_new_access_token st loginW).2.1, 1)) := by
  refine ⟨?_, ?_, ?_⟩
  · intro hf
    simp [refresh_access_token, hf]
  · rintro status ba br ht rfl hst
    simp [refresh_access_token, ht, hst]
  · rintro ht rfl
    simp [refresh_access_token, ht]

/-- C4 witness: with no stored refresh_token a raising refresh call
delegates to the full login, and with a stored refresh_token a 500
response falls back to the full login; in both cases the result is the
login flow's own result. -/
theorem C4_refresh_fallback_witness :
    refresh_access_token ⟨none, none⟩ .exn okWorld =
      ((get_new_access_token ⟨none, none⟩ okWorld).1.toOption,
       (get_new_access_token ⟨none, none⟩ okWorld).2.1, 1) ∧
    refresh_access_token ⟨none, some "r0"⟩ (.resp 500 none none) okWorld =
      ((get_new_access_token ⟨none, some "r0"⟩ okWorld).1.toOption,
       (get_new_access_token ⟨none, some "r0"⟩ okWorld).2.1, 1) :=
  ⟨(C4_refresh_fallback ⟨none, none⟩ .exn okWorld).1 (by decide),
   (C4_refresh_fallback ⟨none, some "r0"⟩ (.resp 500 none none) okWorld).2.1
     500 none none (by decide) rfl (by decide)⟩

lemma listResult_arr (r : DevResult Json) : ∃ l, listResult r = Json.arr l := by
  rcases r with v | _
  · rcases v with _ | j
    · exact ⟨[], rfl⟩
    · rcases j with l | f | s | n | b | _
      · exact ⟨l, rfl⟩
      · exact ⟨[], rfl⟩
      · exact ⟨[], rfl⟩
      · exact ⟨[], rfl⟩
      · exact ⟨[], rfl⟩
      · exact ⟨[], rfl⟩
  · exact ⟨[], rfl⟩

/-- C5 (counterexample): with no access token held and a failing
authentication, `get_device_properties` returns the empty dict `{}`
(api.py line 338) — not a list, contradicting the claim that both listing
operations always return a list. -/
theorem C5_counterexample :
    (get_device_properties ⟨none, none⟩ "D" { okWorld with s1_location := none }
        .exn (fun _ => .exn) (fun s => (none, s))).1 = Json.obj [] ∧
    Json.isList (get_device_properties ⟨none, none⟩ "D"
        { okWorld with s1_location := none }
        .exn (fun _ => .exn) (fun s => (none, s))).1 = false :=
  ⟨rfl, rfl⟩

/-- C5 (amended): `get_devices` always returns a list (the empty list on
any failure); `get_device_properties` returns a list on every path that
reaches the HTTP request (empty on failure), but on the
failed-authentication path it returns the empty dict `{}` instead of a
list. -/
theorem C5_empty_shapes (st : ApiState) (dsn : String) (loginW : LoginWorld)
    (first : HttpOutcome) (retryHttp : Option String → HttpOutcome)
    (refreshSem : ApiState → Option String × ApiState) :
    (∃ l, (get_devices st loginW first retryHttp refreshSem).1 = Json.arr l) ∧
    (truthy st.access_token = true →
      ∃ l, (get_device_properties st dsn loginW first retryHttp refreshSem).1
        = Json.arr l) ∧
    ((authenticate st loginW).1 = true →
      ∃ l, (get_device_properties st dsn loginW first retryHttp refreshSem).1
        = Json.arr l) ∧
    (truthy st.access_token = false → (authenticate st loginW).1 = false →
      (get_device_properties st dsn loginW first retryHttp refreshSem).1
        = Json.obj []) := by
  rcases hA : authenticate st loginW with ⟨ok, st1⟩
  refine ⟨?_, ?_, ?_, ?_⟩
  · by_cases h : truthy st.access_token = false
    · simp only [get_devices, if_pos h, hA]
      cases ok
      · exact ⟨[], rfl⟩
      · exact listResult_arr _
    · simp only [get_devices, if_neg h]
      exact listResult_arr _
  · intro ht
    have h : ¬ truthy st.access_token = false := by simp [ht]
    simp only [get_device_properties, if_neg h]
    exact listResult_arr _
  · intro hok
    have hok2 : ok = true := hok
    subst hok2
    by_cases h : truthy st.access_token = false
    · simp only [get_device_properties, if_pos h, hA]
      exact listResult_arr _
    · simp only [get_device_properties, if_neg h]
      exact listResult_arr _
  · intro h hok
    have hok2 : ok = false := hok
    subst hok2
    simp [get_device_properties, if_pos h, hA]

/-- C5 witness for the amended theorem: a concrete falsy (empty-string)
access token together with a failing authentication yields the empty
dict from `get_device_properties`. -/
theorem C5_empty_shapes_witness :
    (get_device_properties ⟨some "", none⟩ "D" { okWorld with s2_ids := none }
        .exn (fun _ => .exn) (fun s => (none, s))).1 = Json.obj [] :=
  (C5_empty_shapes ⟨some "", none⟩ "D" { okWorld with s2_ids := none }
      .exn (fun _ => .exn) (fun s => (none, s))).2.2.2 (by decide) (by decide)

/-- C1: the 401-refresh-retry contract of `_get_request` and
`_post_request` — a 401 on the first attempt triggers exactly one
`refresh_access_token` invocation (no other first outcome triggers any,
and no run ever invokes it more than once); if the refresh yields a truthy
token the original request is retried exactly once carrying that token
and its success body is returned; if the refresh yields no usable token
the call returns None without a retry; and whenever the refresh or the
retry fails, the logical call degrades to the component-specific empty
list / false result. -/
theorem C1_refresh_retry_policy (st : ApiState)
    (retryHttp : Option String → HttpOutcome)
    (refreshSem : ApiState → Option String × ApiState) :
    (∀ first, refreshCalls (getRequestSem st first retryHttp refreshSem) ≤ 1 ∧
              refreshCalls (postRequestSem st first retryHttp refreshSem) ≤ 1) ∧
    (refreshCalls (getRequestSem st (.clientError 401) retryHttp refreshSem) = 1 ∧
     refreshCalls (postRequestSem st (.clientError 401) retryHttp refreshSem) = 1) ∧
    (∀ s, s ≠ 401 →
      refreshCalls (getRequestSem st (.clientError s) retryHttp refreshSem) = 0 ∧
      refreshCalls (postRequestSem st (.clientError s) retryHttp refreshSem) = 0) ∧
    (truthy (refreshSem st).1 = true →
      attempts (getRequestSem st (.clientError 401) retryHttp refreshSem)
        = [st.access_token, (refreshSem st).1] ∧
      attempts (postRequestSem st (.clientError 401) retryHttp refreshSem)
        = [st.access_token, (refreshSem st).1] ∧
      (∀ b, retryHttp (refreshSem st).1 = .success b →
        reqResult (getRequestSem st (.clientError 401) retryHttp refreshSem)
          = .ret (some b) ∧
        reqResult (postRequestSem st (.clientError 401) retryHttp refreshSem)
          = .ret (some b)) ∧
      ((∀ b, retryHttp (refreshSem st).1 ≠ .success b) →
        listResult (reqResult (getRequestSem st (.clientError 401) retryHttp refreshSem))
          = Json.arr [] ∧
        boolResult (reqResult (getRequestSem st (.clientError 401) retryHttp refreshSem))
          = false ∧
        listResult (reqResult (postRequestSem st (.clientError 401) retryHttp refreshSem))
          = Json.arr [] ∧
        boolResult (reqResult (postRequestSem st (.clientError 401) retryHttp refreshSem))
          = false)) ∧
    (truthy (refreshSem st).1 = false →
      reqResult (getRequestSem st (.clientError 401) retryHttp refreshSem) = .ret none ∧
      reqResult (postRequestSem st (.clientError 401) retryHttp refreshSem) = .ret none ∧
      attempts (getRequestSem st (.clientError 401) retryHttp refreshSem)
        = [st.access_token] ∧
      attempts (postRequestSem st (.clientError 401) retryHttp refreshSem)
        = [st.access_token]) := by
  rcases hR : refreshSem st with ⟨tok, st1⟩
  refine ⟨?_, ?_, ?_, ?_, ?_⟩
  · intro first
    rcases first with b | s | _
    · exact ⟨Nat.zero_le 1, Nat.zero_le 1⟩
    · by_cases hs : s = 401
      · subst hs
        simp only [getRequestSem, postRequestSem, hR, refreshCalls]
        rcases htok : truthy tok with _ | _
        · simp
        · rcases hRet : retryHttp tok with b | s' | _ <;> simp
      · simp only [getRequestSem, postRequestSem, refreshCalls, if_neg hs]
        exact ⟨Nat.zero_le 1, Nat.zero_le 1⟩
    · exact ⟨Nat.zero_le 1, Nat.zero_le 1⟩
  · simp only [getRequestSem, postRequestSem, hR, refreshCalls]
    rcases htok : truthy tok with _ | _
    · simp
    · rcases hRet : retryHttp tok with b | s' | _ <;> simp
  · intro s hs
    constructor <;> simp [getRequestSem, postRequestSem, refreshCalls, hs]
  · intro htok
    have ht : truthy tok = true := htok
    refine ⟨?_, ?_, ?_, ?_⟩
    · rcases hRet : retryHttp tok with b | s' | _ <;>
        simp [getRequestSem, hR, ht, hRet, attempts]
    · rcases hRet : retryHttp tok with b | s' | _ <;>
        simp [postRequestSem, hR, ht, hRet, attempts]
    · intro b hb
      have hb2 : retryHttp tok = .success b := hb
      constructor
      · simp [getRequestSem, hR, ht, hb2, reqResult]
      · simp [postRequestSem, hR, ht, hb2, reqResult]
    · intro hfail
      have hf : ∀ b, retryHttp tok ≠ .success b := fun b => hfail b
      rcases hRet : retryHttp tok with b | s' | _
      · exact absurd hRet (hf b)
      · refine ⟨?_, ?_, ?_, ?_⟩ <;>
          simp [getRequestSem, postRequestSem, hR, ht, hRet,
            reqResult, listResult, boolResult]
      · refine ⟨?_, ?_, ?_, ?_⟩ <;>
          simp [getRequestSem, postRequestSem, hR, ht, hRet,
            reqResult, listResult, boolResult]
  · intro htok
    have ht : truthy tok = false := htok
    refine ⟨?_, ?_, ?_, ?_⟩ <;>
      simp [getRequestSem, postRequestSem, hR, ht, reqResult, attempts]

/-- C1 witness: a concrete run — first attempt 401, refresh yields token
"t1", retry succeeds with body 5 — makes exactly one refresh call,
carries the old then the refreshed token on its two attempts, and returns
the retry body. -/
theorem C1_refresh_retry_policy_witness :
    refreshCalls (getRequestSem ⟨some "t0", some "r0"⟩ (.clientError 401)
        (fun _ => .success (Json.num 5)) (fun s => (some "t1", s))) = 1 ∧
    attempts (getRequestSem ⟨some "t0", some "r0"⟩ (.clientError 401)
        (fun _ => .success (Json.num 5)) (fun s => (some "t1", s)))
      = [some "t0", some "t1"] ∧
    reqResult (getRequestSem ⟨some "t0", some "r0"⟩ (.clientError 401)
        (fun _ => .success (Json.num 5)) (fun s => (some "t1", s)))
      = .ret (some (Json.num 5)) :=
  ⟨(C1_refresh_retry_policy ⟨some "t0", some "r0"⟩
      (fun _ => .success (Json.num 5)) (fun s => (some "t1", s))).2.1.1,
   ((C1_refresh_retry_policy ⟨some "t0", some "r0"⟩
      (fun _ => .success (Json.num 5)) (fun s => (some "t1", s))).2.2.2.1
      (by decide)).1,
   (((C1_refresh_retry_policy ⟨some "t0", some "r0"⟩
      (fun _ => .success (Json.num 5)) (fun s => (some "t1", s))).2.2.2.1
      (by decide)).2.2.1 (Json.num 5) rfl).1⟩

end DelonghiComfort
